import Mathlib

/-!
Verification of the fact feed and voting logic of the facts app
(`src/App.js`). The React component handlers are embedded as pure state
transformers: local component state becomes explicit record types, and each
asynchronous remote call is represented by passing its outcome
(`Except String _`) as an argument to the resolution function. User-visible
alert pop-ups are collected in an output list of strings.
-/

namespace FactsApp

/-- A fact record, as stored in the `facts` table and held in the client's
visible list (`src/App.js`). The three vote counters are non-negative
integers. Note the record carries no disputed field: the disputed
classification is derived (see `isDisputed`). -/
structure Fact where
  id : Nat
  text : String
  source : String
  category : String
  votesInteresting : Nat
  votesMindblowing : Nat
  votesFalse : Nat
deriving DecidableEq, Repr

/-- A category entry of the fixed client-side `CATEGORIES` table
(`src/App.js` lines 6-15). -/
structure Category where
  name : String
  color : String
deriving DecidableEq, Repr

/-- The fixed `CATEGORIES` constant (`src/App.js` lines 6-15). -/
def CATEGORIES : List Category :=
  [ ⟨"technology", "#3b82f6"⟩,
    ⟨"science", "#16a34a"⟩,
    ⟨"finance", "#ef4444"⟩,
    ⟨"society", "#eab308"⟩,
    ⟨"entertainment", "#db2777"⟩,
    ⟨"health", "#14b8a6"⟩,
    ⟨"history", "#f97316"⟩,
    ⟨"news", "#8b5cf6"⟩ ]

/-- The names of the enumerated categories. -/
def categoryNames : List String := CATEGORIES.map Category.name

/-- The disputed classification computed in the `Fact` component
(`src/App.js` lines 283-284):
`fact.votesInteresting + fact.votesMindblowing < fact.votesFalse`. -/
def isDisputed (f : Fact) : Bool :=
  decide (f.votesInteresting + f.votesMindblowing < f.votesFalse)

/-- The tag color lookup performed when rendering a fact
(`src/App.js` lines 315-323):
`CATEGORIES.find((cat) => cat.name === fact.category).color`.
In JavaScript `Array.prototype.find` returns `undefined` when no element
matches, and dereferencing `.color` on `undefined` throws a `TypeError`;
we model the lookup with `Option`, where `none` is the crashing case. -/
def factTagColor (f : Fact) : Option String :=
  (CATEGORIES.find? (fun cat => cat.name == f.category)).map Category.color

/-- C1: for every fact record, the displayed disputed classification is true
iff `votesInteresting + votesMindblowing < votesFalse`. `isDisputed` is a
function of the record alone (recomputed at each render), and the `Fact`
record has no stored disputed field. -/
theorem disputed_iff_votes (f : Fact) :
    isDisputed f = true ↔ f.votesInteresting + f.votesMindblowing < f.votesFalse := by
  simp [isDisputed]

/-- C10: rendering a fact dereferences the `CATEGORIES` lookup without a
guard, so the color is available (rendering is safe) exactly when the
fact's category is one of the 8 enumerated names; outside that set the
lookup yields no entry and rendering fails with a type error. -/
theorem factTagColor_safety (f : Fact) :
    ((factTagColor f).isSome = true ↔ f.category ∈ categoryNames)
      ∧ categoryNames.length = 8 := by
  constructor
  · rw [factTagColor]
    rw [show ∀ (o : Option Category),
          (o.map Category.color).isSome = o.isSome from fun o => by cases o <;> rfl]
    rw [List.find?_isSome]
    constructor
    · rintro ⟨cat, hmem, hname⟩
      refine List.mem_map.mpr ⟨cat, hmem, ?_⟩
      exact beq_iff_eq.mp hname
    · intro hmem
      rcases List.mem_map.mp hmem with ⟨cat, hmem, hname⟩
      exact ⟨cat, hmem, beq_iff_eq.mpr hname⟩
  · rfl

/-- The `App` component's state (`src/App.js` lines 19-22): form visibility,
the visible fact list, the loading flag, and the selected category. -/
structure AppState where
  showForm : Bool
  facts : List Fact
  isLoading : Bool
  currentCategory : String
deriving DecidableEq, Repr

/-- The read query built by `getFacts` (`src/App.js` lines 38-47):
`supabase.from('facts').select('*')`, then `.eq('category', currentCategory)`
only when the selection is not `'all'`, then
`.order('votesInteresting', { ascending: true }).limit(100)`. -/
structure FactsQuery where
  table : String
  eqCategory : Option String
  orderColumn : String
  orderAscending : Bool
  limit : Nat
deriving DecidableEq, Repr

/-- Query construction in `getFacts` (`src/App.js` lines 38-47). -/
def buildFactsQuery (currentCategory : String) : FactsQuery :=
  { table := "facts"
    eqCategory := if currentCategory == "all" then none else some currentCategory
    orderColumn := "votesInteresting"
    orderAscending := true
    limit := 100 }

/-- Ascending comparison on the `votesInteresting` counter, the order the
feed query requests. -/
def voteLE (a b : Fact) : Prop := a.votesInteresting ≤ b.votesInteresting

instance : DecidableRel voteLE := fun a b => Nat.decLe a.votesInteresting b.votesInteresting

instance : IsTotal Fact voteLE := ⟨fun a b => Nat.le_total a.votesInteresting b.votesInteresting⟩

instance : IsTrans Fact voteLE := ⟨fun _ _ _ => Nat.le_trans⟩

/-- Modelled from the spec: evaluation of the read query by the remote store,
which is external to this repository (spec section 6: "select all columns;
optional equality filter on category; ordering by votesInteresting
ascending; limit 100"). The store is a list of rows; filtering keeps rows
whose category equals the filter, rows are sorted ascending by
`votesInteresting`, and the result is truncated to the limit. -/
def runFactsQuery (store : List Fact) (q : FactsQuery) : List Fact :=
  let rows := match q.eqCategory with
    | none => store
    | some c => store.filter (fun f => f.category == c)
  (List.insertionSort voteLE rows).take q.limit

/-- The alert text shown when the feed fetch fails (`src/App.js` line 52). -/
def fetchErrorAlert : String := "There was a problem getting data"

/-- First half of `getFacts` (`src/App.js` line 35): `setIsLoading(true)`
before the request is issued. -/
def getFactsStart (s : AppState) : AppState := { s with isLoading := true }

/-- Second half of `getFacts` (`src/App.js` lines 45-55): on success the
returned rows replace the visible list, on error an alert is shown and the
list is untouched; in both branches `setIsLoading(false)` runs. The second
component collects the alert pop-ups displayed. -/
def getFactsFinish (s : AppState) (result : Except String (List Fact)) :
    AppState × List String :=
  match result with
  | .ok rows => ({ s with facts := rows, isLoading := false }, [])
  | .error _ => ({ s with isLoading := false }, [fetchErrorAlert])

/-- C2: the feed fetch's query keeps only rows of the selected category when
the selection is not "all", orders the result ascending by the
`votesInteresting` counter, caps it at 100 rows, and on success the visible
list is replaced entirely by the returned rows. -/
theorem getFacts_query_behavior (store : List Fact) (C : String) (s : AppState)
    (rows : List Fact) :
    (C ≠ "all" → ∀ f ∈ runFactsQuery store (buildFactsQuery C), f.category = C)
      ∧ List.Pairwise (fun a b => a.votesInteresting ≤ b.votesInteresting)
          (runFactsQuery store (buildFactsQuery C))
      ∧ (runFactsQuery store (buildFactsQuery C)).length ≤ 100
      ∧ (getFactsFinish s (Except.ok rows)).1.facts = rows := by
  refine ⟨?_, ?_, ?_, rfl⟩
  · intro hC f hf
    have hq : (buildFactsQuery C).eqCategory = some C := by
      simp [buildFactsQuery, hC]
    rw [runFactsQuery, hq] at hf
    have hf' : f ∈ List.insertionSort voteLE (store.filter (fun g => g.category == C)) :=
      List.take_subset _ _ hf
    have hf'' : f ∈ store.filter (fun g => g.category == C) :=
      ((List.perm_insertionSort voteLE _).mem_iff).mp hf'
    have hcat := List.of_mem_filter hf''
    simpa using hcat
  · have hsorted : List.Sorted voteLE
        (List.insertionSort voteLE (match (buildFactsQuery C).eqCategory with
          | none => store
          | some c => store.filter (fun f => f.category == c))) :=
      List.sorted_insertionSort voteLE _
    exact List.Pairwise.sublist (List.take_sublist _ _) hsorted
  · calc (runFactsQuery store (buildFactsQuery C)).length
        ≤ (buildFactsQuery C).limit := by
          rw [runFactsQuery]
          exact List.length_take_le _ _
      _ = 100 := rfl

/-- C2 witness: the query behavior at a concrete two-row store and the
category "science". -/
theorem getFacts_query_behavior_witness :
    ("science" ≠ "all" → ∀ f ∈ runFactsQuery
        [⟨1, "a", "https://a", "science", 3, 0, 0⟩,
         ⟨2, "b", "https://b", "history", 1, 0, 0⟩]
        (buildFactsQuery "science"), f.category = "science")
      ∧ List.Pairwise (fun a b => a.votesInteresting ≤ b.votesInteresting)
          (runFactsQuery
            [⟨1, "a", "https://a", "science", 3, 0, 0⟩,
             ⟨2, "b", "https://b", "history", 1, 0, 0⟩]
            (buildFactsQuery "science"))
      ∧ (runFactsQuery
          [⟨1, "a", "https://a", "science", 3, 0, 0⟩,
           ⟨2, "b", "https://b", "history", 1, 0, 0⟩]
          (buildFactsQuery "science")).length ≤ 100
      ∧ (getFactsFinish ⟨false, [], false, "science"⟩
          (Except.ok [⟨1, "a", "https://a", "science", 3, 0, 0⟩])).1.facts =
          [⟨1, "a", "https://a", "science", 3, 0, 0⟩] :=
  getFacts_query_behavior _ "science" _ _

/-- C3: when the feed fetch ends in a remote error, the error alert is
surfaced, the visible list is unchanged, and the loading flag — set true
before the request — is cleared afterwards on both the error and the
success branch. -/
theorem getFacts_error_flow (s : AppState) (e : String) (rows : List Fact) :
    (getFactsStart s).isLoading = true
      ∧ (getFactsFinish (getFactsStart s) (Except.error e)).1.facts = s.facts
      ∧ (getFactsFinish (getFactsStart s) (Except.error e)).2 = [fetchErrorAlert]
      ∧ (getFactsFinish (getFactsStart s) (Except.error e)).1.isLoading = false
      ∧ (getFactsFinish (getFactsStart s) (Except.ok rows)).1.isLoading = false :=
  ⟨rfl, rfl, rfl, rfl, rfl⟩

/-- Result of the browser's URL constructor; `handleSubmit` only ever
inspects the protocol of the parsed URL. -/
structure URL where
  protocol : String
deriving DecidableEq, Repr

/-- The source validator `isValidHttpUrl` (`src/App.js` lines 144-154):
`new URL(string)` is attempted — the browser's WHATWG URL constructor is an
external platform API, so it is passed in as a parameter `parse`, with
`none` standing for the thrown exception (return false); otherwise the
check is `url.protocol === 'http:' || url.protocol === 'https:'`. -/
def isValidHttpUrl (parse : String → Option URL) (s : String) : Bool :=
  match parse s with
  | none => false
  | some url => url.protocol == "http:" || url.protocol == "https:"

/-- The `NewFactForm` component's state (`src/App.js` lines 158-161). -/
structure FormState where
  text : String
  source : String
  category : String
  isUploading : Bool
deriving DecidableEq, Repr

/-- The validation guard of `handleSubmit` (`src/App.js` line 170):
`text && isValidHttpUrl(source) && category && textLength <= 1000`, where a
string is truthy iff non-empty and `textLength` is `text.length`. -/
def submitGuard (parse : String → Option URL) (form : FormState) : Bool :=
  !form.text.isEmpty && isValidHttpUrl parse form.source
    && !form.category.isEmpty && form.text.length ≤ 1000

/-- Everything `handleSubmit` can touch: the form's own state, the
parent-owned `showForm` flag and visible fact list, whether an insert
request was issued, and any alert pop-ups shown. -/
structure SubmitOutcome where
  form : FormState
  showForm : Bool
  facts : List Fact
  insertIssued : Bool
  alerts : List String
deriving DecidableEq, Repr

/-- The `handleSubmit` handler (`src/App.js` lines 164-193). When the guard
passes, the insert is issued (`remote` is its outcome: the row returned by
the store, or an error); on success the returned row is prepended by
`setFacts((facts) => [newFact[0], ...facts])`, and in both remote branches
the three input fields are reset and the form closed, with no alert. When
the guard fails nothing at all happens. -/
def handleSubmit (parse : String → Option URL) (form : FormState) (showForm : Bool)
    (facts : List Fact) (remote : Except String Fact) : SubmitOutcome :=
  if submitGuard parse form then
    { form := { text := "", source := "", category := "", isUploading := false }
      showForm := false
      facts := match remote with
        | .ok newFact => newFact :: facts
        | .error _ => facts
      insertIssued := true
      alerts := [] }
  else
    { form := form, showForm := showForm, facts := facts
      insertIssued := false, alerts := [] }

/-- C4: a submission whose text is empty, whose source fails the URL check,
whose category is empty, or whose text exceeds 1000 characters issues no
insert and is a no-op: list, input fields and form visibility are
unchanged and no alert is shown. -/
theorem handleSubmit_invalid_noop (parse : String → Option URL) (form : FormState)
    (showForm : Bool) (facts : List Fact) (remote : Except String Fact)
    (h : form.text = "" ∨ isValidHttpUrl parse form.source = false
        ∨ form.category = "" ∨ 1000 < form.text.length) :
    handleSubmit parse form showForm facts remote =
      { form := form, showForm := showForm, facts := facts
        insertIssued := false, alerts := [] } := by
  have hguard : submitGuard parse form = false := by
    rcases h with h | h | h | h
    · simp [submitGuard, h, String.isEmpty_iff]
    · simp [submitGuard, h]
    · simp [submitGuard, h, String.isEmpty_iff]
    · simp [submitGuard, Nat.not_le.mpr h]
  simp [handleSubmit, hguard]

/-- C4 witness: a submission with an otherwise valid form whose text has
exactly 1001 characters is a no-op. -/
theorem handleSubmit_invalid_noop_witness :
    handleSubmit (fun _ => some ⟨"https:"⟩)
      ⟨String.mk (List.replicate 1001 'a'), "https://example.com", "science", false⟩
      true [] (Except.ok ⟨1, "x", "https://x", "science", 0, 0, 0⟩) =
      { form := ⟨String.mk (List.replicate 1001 'a'), "https://example.com", "science", false⟩
        showForm := true, facts := []
        insertIssued := false, alerts := [] } :=
  handleSubmit_invalid_noop _ _ _ _ _ (Or.inr (Or.inr (Or.inr (by
    show 1000 < (String.mk (List.replicate 1001 'a')).length
    rw [show (String.mk (List.replicate 1001 'a')).length =
        (List.replicate 1001 'a').length from rfl]
    rw [List.length_replicate]
    decide))))

/-- C5: a submission that passes the guard and whose insert succeeds
prepends the returned row at index 0 of the visible list (the previous
entries following in order), clears the three input fields, and closes the
form. -/
theorem handleSubmit_success (parse : String → Option URL) (form : FormState)
    (showForm : Bool) (facts : List Fact) (newFact : Fact)
    (h : submitGuard parse form = true) :
    handleSubmit parse form showForm facts (Except.ok newFact) =
      { form := { text := "", source := "", category := "", isUploading := false }
        showForm := false
        facts := newFact :: facts
        insertIssued := true
        alerts := [] } := by
  simp [handleSubmit, h]

/-- C5 witness: the concrete submission of the spec's example prepends the
returned row at index 0 ahead of an existing entry. -/
theorem handleSubmit_success_witness :
    handleSubmit (fun _ => some ⟨"https:"⟩)
      ⟨"Bats are blind", "https://example.com", "science", false⟩
      true [⟨1, "old", "https://old", "history", 2, 0, 0⟩]
      (Except.ok ⟨2, "Bats are blind", "https://example.com", "science", 0, 0, 0⟩) =
      { form := { text := "", source := "", category := "", isUploading := false }
        showForm := false
        facts := [⟨2, "Bats are blind", "https://example.com", "science", 0, 0, 0⟩,
                  ⟨1, "old", "https://old", "history", 2, 0, 0⟩]
        insertIssued := true
        alerts := [] } :=
  handleSubmit_success _ _ _ _ _ (by decide)

/-- C6: a submission that passes the guard but whose insert fails leaves
the visible list unchanged, yet still clears the three input fields and
closes the form, and surfaces no alert. -/
theorem handleSubmit_failure (parse : String → Option URL) (form : FormState)
    (showForm : Bool) (facts : List Fact) (e : String)
    (h : submitGuard parse form = true) :
    handleSubmit parse form showForm facts (Except.error e) =
      { form := { text := "", source := "", category := "", isUploading := false }
        showForm := false
        facts := facts
        insertIssued := true
        alerts := [] } := by
  simp [handleSubmit, h]

/-- C6 witness: a concrete failed insert leaves the list unchanged but
still clears the fields and closes the form. -/
theorem handleSubmit_failure_witness :
    handleSubmit (fun _ => some ⟨"https:"⟩)
      ⟨"Bats are blind", "https://example.com", "science", false⟩
      true [⟨1, "old", "https://old", "history", 2, 0, 0⟩]
      (Except.error "insert failed") =
      { form := { text := "", source := "", category := "", isUploading := false }
        showForm := false
        facts := [⟨1, "old", "https://old", "history", 2, 0, 0⟩]
        insertIssued := true
        alerts := [] } :=
  handleSubmit_failure _ _ _ _ _ (by decide)

/-- The three vote counter column names a vote button can pass to
`handleVote` (`src/App.js` lines 324-340). -/
inductive VoteColumn
  | votesInteresting
  | votesMindblowing
  | votesFalse
deriving DecidableEq, Repr

/-- The dynamic column read `fact[columnName]` (`src/App.js` line 290). -/
def getVote (f : Fact) : VoteColumn → Nat
  | .votesInteresting => f.votesInteresting
  | .votesMindblowing => f.votesMindblowing
  | .votesFalse => f.votesFalse

/-- Writing the named vote column of a row, leaving every other field
alone. -/
def setVote (f : Fact) : VoteColumn → Nat → Fact
  | .votesInteresting, v => { f with votesInteresting := v }
  | .votesMindblowing, v => { f with votesMindblowing := v }
  | .votesFalse, v => { f with votesFalse := v }

/-- The update request `handleVote` issues (`src/App.js` lines 288-292):
`update({ [columnName]: fact[columnName] + 1 }).eq('id', fact.id)` — the
written value is the client's last-known local value plus one, scoped to
the row whose identifier matches. -/
structure VoteRequest where
  rowId : Nat
  column : VoteColumn
  newValue : Nat
deriving DecidableEq, Repr

/-- Construction of the vote update request (`src/App.js` lines 288-292). -/
def buildVoteRequest (fact : Fact) (col : VoteColumn) : VoteRequest :=
  { rowId := fact.id, column := col, newValue := getVote fact col + 1 }

/-- Modelled from the spec: the remote store applying a vote update request
to a row (spec section 6: "write one field ... on the row matching a given
identifier"); the named column is set to the request's value. -/
def applyVoteUpdate (req : VoteRequest) (f : Fact) : Fact :=
  setVote f req.column req.newValue

/-- Resolution of `handleVote` (`src/App.js` lines 295-298): on success the
row returned by the store replaces the entries of the visible list whose
identifier matches (`facts.map((f) => (f.id === fact.id ? updatedFact[0] :
f))`); on error nothing happens. No alert is shown in either branch (second
component). -/
def handleVoteResolve (fact : Fact) (facts : List Fact)
    (remote : Except String Fact) : List Fact × List String :=
  match remote with
  | .ok updatedFact => (facts.map (fun f => if f.id == fact.id then updatedFact else f), [])
  | .error _ => (facts, [])

/-- C7: a vote on fact `fact` for column `col` writes the client's
last-known value of that counter plus 1, scoped to `fact.id`; on success
the entries of the visible list with that identifier are replaced by the
returned row; and the row resulting from the store applying the request to
the local row has that counter incremented by exactly 1 and every other
field unchanged. -/
theorem handleVote_spec (fact : Fact) (col : VoteColumn) (facts : List Fact)
    (u : Fact) :
    (buildVoteRequest fact col).rowId = fact.id
      ∧ (buildVoteRequest fact col).newValue = getVote fact col + 1
      ∧ (handleVoteResolve fact facts (Except.ok u)).1 =
          facts.map (fun f => if f.id == fact.id then u else f)
      ∧ (∀ c, getVote (applyVoteUpdate (buildVoteRequest fact col) fact) c =
          if c = col then getVote fact c + 1 else getVote fact c)
      ∧ (applyVoteUpdate (buildVoteRequest fact col) fact).id = fact.id
      ∧ (applyVoteUpdate (buildVoteRequest fact col) fact).text = fact.text
      ∧ (applyVoteUpdate (buildVoteRequest fact col) fact).source = fact.source
      ∧ (applyVoteUpdate (buildVoteRequest fact col) fact).category = fact.category := by
  refine ⟨rfl, rfl, rfl, ?_, ?_, ?_, ?_, ?_⟩ <;>
    cases col <;>
    first
    | rfl
    | (intro c; cases c <;> simp [applyVoteUpdate, buildVoteRequest, setVote, getVote])

/-- C8: on a successful vote the patch is in place — the list keeps its
length, and the entry at every position is unchanged unless its identifier
matches the voted fact's, in which case it becomes the returned row; on a
failed vote the list is entirely unchanged; no alert is shown in either
branch. -/
theorem handleVote_frame (fact : Fact) (facts : List Fact) (u : Fact)
    (e : String) (i : Nat) :
    (handleVoteResolve fact facts (Except.ok u)).1.length = facts.length
      ∧ (handleVoteResolve fact facts (Except.ok u)).1[i]? =
          facts[i]?.map (fun f => if f.id == fact.id then u else f)
      ∧ (∀ f, facts[i]? = some f → f.id ≠ fact.id →
          (handleVoteResolve fact facts (Except.ok u)).1[i]? = some f)
      ∧ (handleVoteResolve fact facts (Except.ok u)).2 = []
      ∧ handleVoteResolve fact facts (Except.error e) = (facts, []) := by
  refine ⟨?_, ?_, ?_, rfl, rfl⟩
  · exact List.length_map _ _
  · exact List.getElem?_map _ _ _
  · intro f hget hid
    rw [handleVoteResolve]
    simp only [List.getElem?_map, hget, Option.map_some]
    simp [hid]

/-- C8 witness: the frame property at a concrete two-entry list, voting on
the fact with identifier 1 and asking about position 1 (identifier 2,
untouched). -/
theorem handleVote_frame_witness :
    (handleVoteResolve ⟨1, "a", "https://a", "science", 3, 0, 0⟩
        [⟨1, "a", "https://a", "science", 3, 0, 0⟩,
         ⟨2, "b", "https://b", "history", 1, 0, 0⟩]
        (Except.ok ⟨1, "a", "https://a", "science", 4, 0, 0⟩)).1.length =
      ([⟨1, "a", "https://a", "science", 3, 0, 0⟩,
        ⟨2, "b", "https://b", "history", 1, 0, 0⟩] : List Fact).length
    ∧ (handleVoteResolve ⟨1, "a", "https://a", "science", 3, 0, 0⟩
        [⟨1, "a", "https://a", "science", 3, 0, 0⟩,
         ⟨2, "b", "https://b", "history", 1, 0, 0⟩]
        (Except.ok ⟨1, "a", "https://a", "science", 4, 0, 0⟩)).1[1]? =
      ([⟨1, "a", "https://a", "science", 3, 0, 0⟩,
        ⟨2, "b", "https://b", "history", 1, 0, 0⟩] : List Fact)[1]?.map
        (fun f => if f.id == (⟨1, "a", "https://a", "science", 3, 0, 0⟩ : Fact).id
          then ⟨1, "a", "https://a", "science", 4, 0, 0⟩ else f)
    ∧ (∀ f, ([⟨1, "a", "https://a", "science", 3, 0, 0⟩,
        ⟨2, "b", "https://b", "history", 1, 0, 0⟩] : List Fact)[1]? = some f →
        f.id ≠ (⟨1, "a", "https://a", "science", 3, 0, 0⟩ : Fact).id →
        (handleVoteResolve ⟨1, "a", "https://a", "science", 3, 0, 0⟩
          [⟨1, "a", "https://a", "science", 3, 0, 0⟩,
           ⟨2, "b", "https://b", "history", 1, 0, 0⟩]
          (Except.ok ⟨1, "a", "https://a", "science", 4, 0, 0⟩)).1[1]? = some f)
    ∧ (handleVoteResolve ⟨1, "a", "https://a", "science", 3, 0, 0⟩
        [⟨1, "a", "https://a", "science", 3, 0, 0⟩,
         ⟨2, "b", "https://b", "history", 1, 0, 0⟩]
        (Except.ok ⟨1, "a", "https://a", "science", 4, 0, 0⟩)).2 = []
    ∧ handleVoteResolve ⟨1, "a", "https://a", "science", 3, 0, 0⟩
        [⟨1, "a", "https://a", "science", 3, 0, 0⟩,
         ⟨2, "b", "https://b", "history", 1, 0, 0⟩]
        (Except.error "update failed") =
      ([⟨1, "a", "https://a", "science", 3, 0, 0⟩,
        ⟨2, "b", "https://b", "history", 1, 0, 0⟩], []) :=
  handleVote_frame _ _ _ _ 1

/-- C9: from the client's perspective the vote counters never decrease —
a vote action writes a value strictly greater than the client's last-known
value, and the row the store derives from the client's row has exactly the
chosen counter incremented by 1 while the other two counters are untouched,
so every counter is at least its previous value. -/
theorem vote_counters_monotone (fact : Fact) (col : VoteColumn) :
    (∀ c, getVote (applyVoteUpdate (buildVoteRequest fact col) fact) c =
        if c = col then getVote fact c + 1 else getVote fact c)
      ∧ (∀ c, getVote fact c ≤ getVote (applyVoteUpdate (buildVoteRequest fact col) fact) c)
      ∧ getVote fact col < (buildVoteRequest fact col).newValue := by
  refine ⟨?_, ?_, Nat.lt_succ_self _⟩ <;>
    intro c <;> cases col <;> cases c <;>
    simp [applyVoteUpdate, buildVoteRequest, setVote, getVote]

end FactsApp
